import Mathlib

/-!
A shallow embedding of the fastapi-proxy-auth gateway (`src/main.py`).

The gateway's module-level state (`VALID_API_KEYS`, `OPENAI_MODELS`,
`OLLAMA_MODELS`, `SERVER_IP`, `SERVER_PORT`, `OPENAI_ENDPOINT`,
`OPENAI_API_KEY`) is gathered in a `Config` record.  Handlers become pure
functions from a request (headers and raw body) and the current state of the
audit store to a response together with the trace of audit-log calls and
outbound network attempts they perform.  External effects are oracles:
JSON parsing of the request body is a function `parse : String → Option String`
(`none` models a `json.loads` exception, `some m` the extracted `model`
field), and the outbound HTTP client is `net : Attempt → HttpResponse`.
Python falsy values (`False` from `os.getenv`, empty strings) are modelled
as the empty string.
-/

namespace ProxyAuth

/-- One entry of the audit CSV `api_usage.csv`, as written by
`log_api_usage`: `[datetime.now(), username, api_key, endpoint,
request_headers, request_body]`.  Header and body snapshots are stored as
the strings the CSV writer persists. -/
structure UsageRow where
  timestamp : String
  username : Option String
  apiKey : String
  endpoint : String
  requestHeaders : String
  requestBody : String
  deriving Repr, DecidableEq

/-- One entry of the JSON array returned by the `/api_usage` endpoint:
`{"timestamp": row[0], "username": row[1], "endpoint": row[3],
"request_header": row[4], "request_body": row[5]}`.  Note there is no
field for `row[2]` (the raw API key). -/
structure UsageEntry where
  timestamp : String
  username : Option String
  endpoint : String
  request_header : String
  request_body : String
  deriving Repr, DecidableEq

/-- Module-level configuration loaded by `load_config` plus the two model
catalogs computed at startup. -/
structure Config where
  validKeys : List (String × String)
  openaiModels : List String
  ollamaModels : List String
  serverIp : String
  serverPort : String
  openaiEndpoint : String
  openaiApiKey : String
  deriving Repr

/-- `VALID_API_KEYS.values()`. -/
def Config.values (cfg : Config) : List String :=
  cfg.validKeys.map Prod.snd

/-- `api_key.replace('"', '')`: every double-quote character is removed
(replacing each one-character occurrence with the empty string is exactly
a character filter). -/
def stripQuotes (s : String) : String :=
  ⟨s.data.filter (fun c => c ≠ '"')⟩

/-- `authorization.startswith("Bearer ")`, on characters as in Python. -/
def isBearer (s : String) : Bool :=
  "Bearer ".data.isPrefixOf s.data

/-- `authorization[7:]`: Python slicing drops the first seven characters
whether or not the prefix was checked. -/
def sliceFrom7 (s : String) : String :=
  ⟨s.data.drop 7⟩

/-- `request.headers.get(name, "")`. -/
def headerGet (headers : List (String × String)) (name : String) : String :=
  ((headers.find? (fun p => p.1 == name)).map Prod.snd).getD ""

/-- The username lookup in `log_api_usage`:
`next((user for user, key in VALID_API_KEYS.items() if key == api_key), None)`. -/
def lookupUser (keys : List (String × String)) (apiKey : String) : Option String :=
  (keys.find? (fun p => p.2 == apiKey)).map Prod.fst

/-- The arguments of one call to `log_api_usage`
(`datetime.now()` is passed in as `time`). -/
structure LogCall where
  time : String
  apiKey : String
  endpoint : String
  requestHeaders : String
  requestBody : String
  deriving Repr, DecidableEq

/-- The row `log_api_usage` appends for a given call. -/
def usageRowOf (keys : List (String × String)) (c : LogCall) : UsageRow :=
  ⟨c.time, lookupUser keys c.apiKey, c.apiKey, c.endpoint,
    c.requestHeaders, c.requestBody⟩

/-- `log_api_usage`: under `log_lock`, append one CSV row
`[datetime.now(), username, api_key, endpoint, request_headers,
request_body]` to `api_usage.csv`. -/
def log_api_usage (keys : List (String × String)) (c : LogCall)
    (log : List UsageRow) : List UsageRow :=
  log ++ [usageRowOf keys c]

/-- The read path of `/api_usage`: open `api_usage.csv`, skip one row
(`next(reader, None)`), and project each remaining row to a `UsageEntry`
(dropping the stored raw API key, `row[2]`). -/
def read_api_usage (log : List UsageRow) : List UsageEntry :=
  (log.drop 1).map
    (fun r => ⟨r.timestamp, r.username, r.endpoint, r.requestHeaders, r.requestBody⟩)

/-- The serialized effect of a sequence of `log_api_usage` calls: the
`log_lock` mutex makes each call's open-append-close atomic, so the store
evolves by the calls in the order their critical sections complete. -/
def runLog (keys : List (String × String)) (calls : List LogCall)
    (log : List UsageRow) : List UsageRow :=
  calls.foldl (fun acc c => log_api_usage keys c acc) log

/-- One audit-log call made by a handler: `valid` is a `log_api_usage`
call, `invalid` a `log_invalid_api_usage` call.  `headers`/`body` are
`none` when the Python defaults (`"none"`) are used. -/
inductive LogEvent where
  | valid (apiKey : String) (endpoint : String)
      (headers : Option (List (String × String))) (body : Option String)
  | invalid (apiKey : String) (endpoint : String)
      (headers : Option (List (String × String))) (body : Option String)
  deriving Repr, DecidableEq

/-- An HTTP response as a handler composes it (body, status code,
explicitly set headers). -/
structure HttpResponse where
  body : String
  status : Nat
  headers : List (String × String)
  deriving Repr, DecidableEq

/-- One outbound request issued by the proxy to a backend. -/
structure Attempt where
  backend : String
  method : String
  url : String
  headers : List (String × String)
  body : String
  deriving Repr, DecidableEq

/-- Result of the proxy handler: a composed response, or an unhandled
`json.loads` exception escaping the handler. -/
inductive ProxyResult where
  | response (r : HttpResponse)
  | jsonError
  deriving Repr, DecidableEq

/-- Everything observable about one run of the proxy handler. -/
structure ProxyOutcome where
  result : ProxyResult
  logs : List LogEvent
  attempts : List Attempt
  deriving Repr, DecidableEq

/-- An inbound request to the catch-all proxy route. -/
structure ProxyRequest where
  method : String
  path : String
  headers : List (String × String)
  body : String
  deriving Repr, DecidableEq

/-- The catch-all `proxy` handler of `src/main.py`.

`parse b = none` models `json.loads(b)` raising; `parse b = some m`
models `json.loads(b).get("model", "")` returning `m`.  `net` models the
`httpx` client: the proxy records each `Attempt` it issues and uses the
oracle's answer as the upstream response. -/
def proxy (cfg : Config) (parse : String → Option String)
    (net : Attempt → HttpResponse) (req : ProxyRequest) : ProxyOutcome :=
  let authorization := headerGet req.headers "Authorization"
  if ¬ isBearer authorization then
    { result := .response ⟨"Invalid API Key format", 400,
        [("Proxy-Status", "invalid_api_key_format")]⟩,
      logs := [.invalid "no_api_key" req.path (some req.headers) (some req.body)],
      attempts := [] }
  else
    let api_key := sliceFrom7 authorization
    if req.body ≠ "" then
      match parse req.body with
      | none => { result := .jsonError, logs := [], attempts := [] }
      | some model_name =>
        if stripQuotes api_key ∈ cfg.values then
          if model_name ∈ cfg.openaiModels then
            let att : Attempt :=
              { backend := "openai", method := "POST",
                url := cfg.openaiEndpoint ++ req.path,
                headers := [("Content-Type", "application/json"),
                  ("Authorization", "Bearer " ++ cfg.openaiApiKey)],
                body := req.body }
            { result := .response ⟨(net att).body, 200, []⟩,
              logs := [.valid api_key req.path (some req.headers) (some req.body)],
              attempts := [att] }
          else if model_name ∈ cfg.ollamaModels then
            let att : Attempt :=
              { backend := "ollama", method := req.method,
                url := "http://" ++ cfg.serverIp ++ ":" ++ cfg.serverPort ++ req.path,
                headers := req.headers,
                body := req.body }
            { result := .response ⟨(net att).body, (net att).status, (net att).headers⟩,
              logs := [.valid api_key req.path (some req.headers) (some req.body)],
              attempts := [att] }
          else
            { result := .response ⟨"Invalid Model Name. Check if the model exists with /models endpoints",
                400, [("Proxy-Status", "invalid_model")]⟩,
              logs := [.invalid api_key req.path none none],
              attempts := [] }
        else
          { result := .response ⟨"Invalid API Key", 401,
              [("Proxy-Status", "invalid_api_key")]⟩,
            logs := [.invalid api_key req.path none none],
            attempts := [] }
    else
      { result := .response ⟨"Access to this endpoint is restricted", 400,
          [("Proxy-Status", "empty_request_body")]⟩,
        logs := [], attempts := [] }

/-- Observable outcome of the simple authenticated endpoints. -/
structure SimpleOut where
  status : Nat
  proxyStatus : Option String
  events : List LogEvent
  deriving Repr, DecidableEq

/-- The `/service_log` handler: rejects only a missing/empty
`Authorization` header as malformed; otherwise slices off seven characters
and compares the remainder exactly (no quote stripping). -/
def get_service_log (cfg : Config) (headers : List (String × String)) : SimpleOut :=
  let authorization := headerGet headers "Authorization"
  if authorization = "" then
    { status := 400, proxyStatus := some "invalid_api_key_format",
      events := [.invalid "no_api_key" "/service_log" none none] }
  else
    let api_key := sliceFrom7 authorization
    if api_key ∈ cfg.values then
      { status := 200, proxyStatus := none,
        events := [.valid api_key "/service_log" none none] }
    else
      { status := 401, proxyStatus := some "invalid_api",
        events := [.invalid api_key "/service_log" none none] }

/-- The `/models` handler: rejects only a missing/empty `Authorization`
header as malformed; strips double quotes from the sliced token before
comparison. -/
def get_models (cfg : Config) (headers : List (String × String)) : SimpleOut :=
  let authorization := headerGet headers "Authorization"
  if authorization = "" then
    { status := 400, proxyStatus := some "invalid_api_key_format",
      events := [.invalid "no_api_key" "/models" none none] }
  else
    let api_key := sliceFrom7 authorization
    if stripQuotes api_key ∈ cfg.values then
      { status := 200, proxyStatus := none,
        events := [.valid api_key "/models" none none] }
    else
      { status := 401, proxyStatus := some "invalid_api",
        events := [.invalid api_key "/models" none none] }

/-- Observable outcome of the `/api_usage` handler: the response status,
the entries returned (empty unless the status is 200), the new state of
the audit store, and the audit-log calls made. -/
structure UsageOut where
  status : Nat
  proxyStatus : Option String
  entries : List UsageEntry
  newLog : List UsageRow
  events : List LogEvent
  deriving Repr, DecidableEq

/-- The `/api_usage` handler: requires the `"Bearer "` form, compares the
sliced token exactly (no quote stripping), reads the store back skipping
one row, then appends its own usage record.  The malformed branch logs
endpoint `"/validate"`, as the source does.  File-system errors are not
modelled: the read and append are assumed to succeed. -/
def get_api_usage (cfg : Config) (time : String) (log : List UsageRow)
    (headers : List (String × String)) : UsageOut :=
  let authorization := headerGet headers "Authorization"
  if ¬ isBearer authorization then
    { status := 400, proxyStatus := some "invalid_api_key_format",
      entries := [], newLog := log,
      events := [.invalid "no_api_key" "/validate" none none] }
  else
    let api_key := sliceFrom7 authorization
    if api_key ∈ cfg.values then
      { status := 200, proxyStatus := none,
        entries := read_api_usage log,
        newLog := log_api_usage cfg.validKeys ⟨time, api_key, "/api_usage", "none", "none"⟩ log,
        events := [.valid api_key "/api_usage" none none] }
    else
      { status := 401, proxyStatus := some "invalid_api_key",
        entries := [], newLog := log,
        events := [.invalid api_key "/api_usage" none none] }

/-- `get_openai_models`: guarded by the truthiness of `OPENAI_API_KEY`.
`fetch` models `client.get(...)` returning the raw response content, with
`Except.error` a raised network exception; `jsonData c` models
`json.loads(c).get("data", [])`: `none` when `json.loads` raises,
`some none` when the parsed document has no `"data"` field (the default
`[]` applies), `some (some l)` when it yields the list `l`.  There is no
exception handler in the source, so errors propagate. -/
def get_openai_models (openaiApiKey : String) (fetch : Except Unit String)
    (jsonData : String → Option (Option (List String))) : Except Unit (List String) :=
  if openaiApiKey ≠ "" then
    match fetch with
    | .error e => .error e
    | .ok content =>
      match jsonData content with
      | none => .error ()
      | some none => .ok []
      | some (some l) => .ok l
  else
    .ok []

/-- `get_ollama_models`: guarded by the truthiness of both `SERVER_IP` and
`SERVER_PORT`; same oracle conventions as `get_openai_models`, with
`jsonModels c` modelling `json.loads(c).get("models", [])`. -/
def get_ollama_models (serverIp serverPort : String) (fetch : Except Unit String)
    (jsonModels : String → Option (Option (List String))) : Except Unit (List String) :=
  if serverIp ≠ "" ∧ serverPort ≠ "" then
    match fetch with
    | .error e => .error e
    | .ok content =>
      match jsonModels content with
      | none => .error ()
      | some none => .ok []
      | some (some l) => .ok l
  else
    .ok []

/-! Concrete instances used by counterexamples and witnesses. -/

/-- A sample configuration: one credential, one model per backend. -/
def cfg0 : Config :=
  { validKeys := [("alice", "secret")], openaiModels := ["gpt-4o"],
    ollamaModels := ["llama3:latest"], serverIp := "10.0.0.2",
    serverPort := "11434", openaiEndpoint := "https://api.openai.com",
    openaiApiKey := "sk-upstream" }

/-- A network oracle whose backends always answer 200 "ok". -/
def net0 : Attempt → HttpResponse := fun _ => ⟨"ok", 200, []⟩

/-- A body-parse oracle extracting model `"zzz"` (absent from both
catalogs of `cfg0`). -/
def parseUnknown : String → Option String := fun _ => some "zzz"

/-- A body-parse oracle extracting model `"gpt-4o"`. -/
def parseGpt : String → Option String := fun _ => some "gpt-4o"

/-- A body-parse oracle modelling `json.loads` raising on every body. -/
def parseFail : String → Option String := fun _ => none

/-- A proxy request with a valid bearer key and a model unknown to both
catalogs of `cfg0`. -/
def reqUnknown : ProxyRequest :=
  { method := "POST", path := "/v1/chat/completions",
    headers := [("Authorization", "Bearer secret"), ("X-Custom", "v")],
    body := "model zzz" }

/-- A proxy request with a valid bearer key and an empty body. -/
def reqEmpty : ProxyRequest :=
  { method := "POST", path := "/v1/chat/completions",
    headers := [("Authorization", "Bearer secret")], body := "" }

/-- A proxy request with a valid bearer key, an extra inbound header and a
body whose model is in `cfg0`'s OpenAI catalog. -/
def reqOpenAI : ProxyRequest :=
  { method := "POST", path := "/v1/chat/completions",
    headers := [("Authorization", "Bearer secret"), ("X-Custom", "v")],
    body := "model gpt-4o" }

/-- A proxy request with a valid bearer key and a body that does not
parse as JSON. -/
def reqBadJson : ProxyRequest :=
  { method := "POST", path := "/v1/chat/completions",
    headers := [("Authorization", "Bearer secret")], body := "not json" }

/-- A proxy request whose Authorization header is present but not of the
`"Bearer "` form. -/
def reqBasic : ProxyRequest :=
  { method := "GET", path := "/v1/x",
    headers := [("Authorization", "Basic secret")], body := "x" }

/-- A body-parse oracle extracting model `"llama3:latest"`. -/
def parseLlama : String → Option String := fun _ => some "llama3:latest"

/-- A proxy request with a valid bearer key, an extra inbound header and a
body whose model is in `cfg0`'s Ollama catalog. -/
def reqOllama : ProxyRequest :=
  { method := "POST", path := "/api/chat",
    headers := [("Authorization", "Bearer secret"), ("X-Custom", "v")],
    body := "model llama3" }

/-! Helper lemmas about the header-string operations. -/

theorem isBearer_append (k : String) : isBearer ("Bearer " ++ k) = true := by
  simp [isBearer, String.data_append]

theorem sliceFrom7_append (k : String) : sliceFrom7 ("Bearer " ++ k) = k := by
  show (⟨("Bearer ".data ++ k.data).drop 7⟩ : String) = k
  rw [List.drop_left' (by rfl)]

theorem stripQuotes_dquote (k : String) :
    stripQuotes ("\"" ++ k ++ "\"") = stripQuotes k := by
  show (⟨(("\"".data ++ k.data) ++ "\"".data).filter _⟩ : String) = _
  simp [stripQuotes, List.filter_append]

theorem bearer_append_ne_empty (k : String) : ("Bearer " ++ k) ≠ "" := by
  intro h
  have h2 : "Bearer ".data ++ k.data = ([] : List Char) := congrArg String.data h
  exact absurd (List.append_eq_nil.mp h2).1 (by decide)

/-! Claim theorems. -/

/-- Serialized `log_api_usage` calls append one row each: the store ends
as the prior contents followed by one row per call, in call order. -/
theorem runLog_append_eq (keys : List (String × String)) (calls : List LogCall)
    (log : List UsageRow) :
    runLog keys calls log = log ++ calls.map (usageRowOf keys) := by
  induction calls generalizing log with
  | nil => simp [runLog]
  | cons c cs ih =>
    have hstep : runLog keys (c :: cs) log = runLog keys cs (log_api_usage keys c log) := rfl
    rw [hstep, ih, log_api_usage]
    simp

/-- Claim C9 counterexample: two serialized appends to a fresh store are
read back through the usage-query read path as one record, not two — the
reader unconditionally skips the first row, so the claimed read-back
count of exactly N fails at N = 2. -/
theorem audit_read_cex :
    (runLog cfg0.validKeys [⟨"t1", "secret", "/a", "none", "none"⟩,
        ⟨"t2", "secret", "/b", "none", "none"⟩] []).length = 2 ∧
    (read_api_usage (runLog cfg0.validKeys [⟨"t1", "secret", "/a", "none", "none"⟩,
        ⟨"t2", "secret", "/b", "none", "none"⟩] [])).length = 1 := by
  decide

/-- Claim C9 (corrected): serialized appends are totally ordered and
lossless at the store — N calls completing their `log_lock` critical
sections in order t1 < ... < tN leave the store holding exactly N rows in
that order; but reading the log back through the usage-query read path
returns only the records after the first, in that same relative order and
without the raw-credential field: N appends to a fresh store read back as
N − 1 records. -/
theorem audit_append_read_amended (keys : List (String × String)) (calls : List LogCall)
    (log : List UsageRow) :
    runLog keys calls log = log ++ calls.map (usageRowOf keys) ∧
    (runLog keys calls log).length = log.length + calls.length ∧
    read_api_usage (runLog keys calls []) =
      (calls.drop 1).map (fun c =>
        (⟨c.time, lookupUser keys c.apiKey, c.endpoint, c.requestHeaders,
          c.requestBody⟩ : UsageEntry)) ∧
    (read_api_usage (runLog keys calls [])).length = calls.length - 1 := by
  refine ⟨runLog_append_eq keys calls log, ?_, ?_, ?_⟩
  · rw [runLog_append_eq]; simp
  · rw [runLog_append_eq]
    simp only [read_api_usage, List.nil_append, List.drop_one, List.map_tail, List.map_map]
    rfl
  · rw [runLog_append_eq]
    simp [read_api_usage]

/-- Claim C10 (confirmed): with a well-formed `Bearer` header and a
non-empty body that `json.loads` cannot parse, the `proxy` handler escapes
with the unhandled parse exception: no gateway response is composed, no
backend is attempted, and no audit record of either kind is written. -/
theorem invalid_json_unhandled (cfg : Config) (parse : String → Option String)
    (net : Attempt → HttpResponse) (req : ProxyRequest)
    (hauth : isBearer (headerGet req.headers "Authorization") = true)
    (hbody : req.body ≠ "")
    (hparse : parse req.body = none) :
    proxy cfg parse net req = ⟨.jsonError, [], []⟩ := by
  simp [proxy, hauth, hbody, hparse]

/-- Witness for `invalid_json_unhandled` at a concrete request. -/
theorem invalid_json_unhandled_witness :
    proxy cfg0 parseFail net0 reqBadJson = ⟨.jsonError, [], []⟩ :=
  invalid_json_unhandled cfg0 parseFail net0 reqBadJson (by decide) (by decide) rfl

/-- Claim C8 (confirmed): when the body's model field belongs to the
catalog of exactly one backend and the key is accepted, the proxy issues
exactly one outbound attempt, and it goes to that backend — zero attempts
against the other backend and no retry. -/
theorem single_backend_attempt (cfg : Config) (parse : String → Option String)
    (net : Attempt → HttpResponse) (req : ProxyRequest) (m : String)
    (hauth : isBearer (headerGet req.headers "Authorization") = true)
    (hbody : req.body ≠ "")
    (hparse : parse req.body = some m)
    (hkey : stripQuotes (sliceFrom7 (headerGet req.headers "Authorization")) ∈ cfg.values)
    (huniq : (m ∈ cfg.openaiModels ∧ m ∉ cfg.ollamaModels) ∨
             (m ∉ cfg.openaiModels ∧ m ∈ cfg.ollamaModels)) :
    ∃ a, (proxy cfg parse net req).attempts = [a] ∧
      ((m ∈ cfg.openaiModels ∧ a.backend = "openai") ∨
       (m ∈ cfg.ollamaModels ∧ a.backend = "ollama")) := by
  rcases huniq with ⟨h1, h2⟩ | ⟨h1, h2⟩
  · have hatt : (proxy cfg parse net req).attempts =
        [⟨"openai", "POST", cfg.openaiEndpoint ++ req.path,
          [("Content-Type", "application/json"),
            ("Authorization", "Bearer " ++ cfg.openaiApiKey)], req.body⟩] := by
      simp [proxy, hauth, hbody, hparse, hkey, h1]
    exact ⟨_, hatt, Or.inl ⟨h1, rfl⟩⟩
  · have hatt : (proxy cfg parse net req).attempts =
        [⟨"ollama", req.method,
          "http://" ++ cfg.serverIp ++ ":" ++ cfg.serverPort ++ req.path,
          req.headers, req.body⟩] := by
      simp [proxy, hauth, hbody, hparse, hkey, h1, h2]
    exact ⟨_, hatt, Or.inr ⟨h2, rfl⟩⟩

/-- Witness for `single_backend_attempt` at a concrete request whose model
is served by the OpenAI backend only. -/
theorem single_backend_attempt_witness :
    ∃ a, (proxy cfg0 parseGpt net0 reqOpenAI).attempts = [a] ∧
      (("gpt-4o" ∈ cfg0.openaiModels ∧ a.backend = "openai") ∨
       ("gpt-4o" ∈ cfg0.ollamaModels ∧ a.backend = "ollama")) :=
  single_backend_attempt cfg0 parseGpt net0 reqOpenAI "gpt-4o"
    (by decide) (by decide) rfl (by decide) (by decide)

/-- Claim C1 counterexample: with a well-formed bearer header, a valid
key and a model absent from both catalogs, the proxy makes zero backend
attempts and answers 400 with the `invalid_model` marker — it does not
try the backends and it returns no 500-class `AllBackendsFailed`. -/
theorem proxy_unknown_model_cex :
    (proxy cfg0 parseUnknown net0 reqUnknown).attempts = [] ∧
    (proxy cfg0 parseUnknown net0 reqUnknown).result =
      .response ⟨"Invalid Model Name. Check if the model exists with /models endpoints",
        400, [("Proxy-Status", "invalid_model")]⟩ := by
  decide

/-- Claim C1 (corrected): for every proxy request with a well-formed
bearer header, an accepted key and a model absent from every catalog, the
gateway rejects the request outright: it responds 400 with the
`invalid_model` marker, writes one invalid-usage audit record, and
attempts no backend at all. -/
theorem proxy_unknown_model_rejects (cfg : Config) (parse : String → Option String)
    (net : Attempt → HttpResponse) (req : ProxyRequest) (m : String)
    (hauth : isBearer (headerGet req.headers "Authorization") = true)
    (hbody : req.body ≠ "")
    (hparse : parse req.body = some m)
    (hkey : stripQuotes (sliceFrom7 (headerGet req.headers "Authorization")) ∈ cfg.values)
    (h1 : m ∉ cfg.openaiModels) (h2 : m ∉ cfg.ollamaModels) :
    proxy cfg parse net req =
      ⟨.response ⟨"Invalid Model Name. Check if the model exists with /models endpoints",
          400, [("Proxy-Status", "invalid_model")]⟩,
        [.invalid (sliceFrom7 (headerGet req.headers "Authorization")) req.path none none],
        []⟩ := by
  simp [proxy, hauth, hbody, hparse, hkey, h1, h2]

/-- Witness for `proxy_unknown_model_rejects` at a concrete request. -/
theorem proxy_unknown_model_rejects_witness :
    proxy cfg0 parseUnknown net0 reqUnknown =
      ⟨.response ⟨"Invalid Model Name. Check if the model exists with /models endpoints",
          400, [("Proxy-Status", "invalid_model")]⟩,
        [.invalid (sliceFrom7 (headerGet reqUnknown.headers "Authorization"))
          reqUnknown.path none none], []⟩ :=
  proxy_unknown_model_rejects cfg0 parseUnknown net0 reqUnknown "zzz"
    (by decide) (by decide) rfl (by decide) (by decide) (by decide)

/-- Claim C2 counterexample: a single record appended by `log_api_usage`
to an empty store is not returned at all by the usage-query read path —
the reader unconditionally skips one row as a presumed header, but the
writer never writes a header row. -/
theorem usage_roundtrip_cex :
    (log_api_usage cfg0.validKeys ⟨"t0", "secret", "/x", "h", "b"⟩ []).length = 1 ∧
    read_api_usage (log_api_usage cfg0.validKeys ⟨"t0", "secret", "/x", "h", "b"⟩ []) = [] := by
  decide

/-- Claim C2 (corrected): the usage-query read path omits the first
persisted record entirely and drops the raw-credential column; every
record after the first is reproduced in order with its timestamp,
username, endpoint, headers snapshot and body snapshot unchanged. -/
theorem usage_roundtrip_amended (log : List UsageRow) (i : Nat) :
    (read_api_usage log).length = log.length - 1 ∧
    ((read_api_usage log)[i]?).map UsageEntry.timestamp = (log[i+1]?).map UsageRow.timestamp ∧
    ((read_api_usage log)[i]?).map UsageEntry.username = (log[i+1]?).map UsageRow.username ∧
    ((read_api_usage log)[i]?).map UsageEntry.endpoint = (log[i+1]?).map UsageRow.endpoint ∧
    ((read_api_usage log)[i]?).map UsageEntry.request_header =
      (log[i+1]?).map UsageRow.requestHeaders ∧
    ((read_api_usage log)[i]?).map UsageEntry.request_body =
      (log[i+1]?).map UsageRow.requestBody := by
  have hl : ∀ j : Nat, (read_api_usage log)[j]? =
      (log[j+1]?).map (fun r =>
        (⟨r.timestamp, r.username, r.endpoint, r.requestHeaders, r.requestBody⟩ : UsageEntry)) := by
    intro j
    simp [read_api_usage, List.getElem?_drop, Nat.add_comm]
  refine ⟨by simp [read_api_usage], ?_, ?_, ?_, ?_, ?_⟩ <;>
    rw [hl] <;> cases log[i+1]? <;> rfl

/-- Claim C3 counterexample: the empty-body rejection branch of the proxy
returns its 400 response with no audit record of either kind written. -/
theorem audit_branch_cex :
    (proxy cfg0 parseUnknown net0 reqEmpty).logs = [] ∧
    (proxy cfg0 parseUnknown net0 reqEmpty).result =
      .response ⟨"Access to this endpoint is restricted", 400,
        [("Proxy-Status", "empty_request_body")]⟩ := by
  decide

/-- Claim C3 (corrected): every branch of `/service_log`, `/models` and
`/api_usage` writes exactly one audit record before responding, and so
does every proxy branch except two: a well-formed bearer request with an
empty body is answered 400 with no record, and one whose body fails JSON
parsing escapes with no record. -/
theorem audit_branch_amended (cfg : Config) (time : String) (log : List UsageRow)
    (hs : List (String × String)) (parse : String → Option String)
    (net : Attempt → HttpResponse) (req : ProxyRequest) :
    (get_service_log cfg hs).events.length = 1 ∧
    (get_models cfg hs).events.length = 1 ∧
    (get_api_usage cfg time log hs).events.length = 1 ∧
    (proxy cfg parse net req).logs.length =
      (if isBearer (headerGet req.headers "Authorization") = true ∧
          (req.body = "" ∨ parse req.body = none) then 0 else 1) := by
  refine ⟨?_, ?_, ?_, ?_⟩
  · simp only [get_service_log]; split_ifs <;> rfl
  · simp only [get_models]; split_ifs <;> rfl
  · simp only [get_api_usage]; split_ifs <;> rfl
  · by_cases hb : isBearer (headerGet req.headers "Authorization") = true
    · by_cases he : req.body = ""
      · simp [proxy, hb, he]
      · cases hp : parse req.body with
        | none => simp [proxy, hb, he, hp]
        | some m =>
          simp only [proxy, hb, he, hp]
          simp [hb, he, hp]
          split_ifs <;> rfl
    · simp [proxy, hb]

/-- Header list carrying `Authorization: Bearer <tok>`. -/
def bearerHeaders (tok : String) : List (String × String) :=
  [("Authorization", "Bearer " ++ tok)]

theorem headerGet_bearerHeaders (t : String) :
    headerGet (bearerHeaders t) "Authorization" = "Bearer " ++ t := rfl

theorem get_models_bearer (cfg : Config) (t : String) :
    (get_models cfg (bearerHeaders t)).status =
      (if stripQuotes t ∈ cfg.values then 200 else 401) := by
  simp only [get_models, headerGet_bearerHeaders, sliceFrom7_append]
  rw [if_neg (bearer_append_ne_empty t)]
  split_ifs <;> rfl

theorem get_api_usage_bearer (cfg : Config) (time : String) (log : List UsageRow)
    (t : String) :
    (get_api_usage cfg time log (bearerHeaders t)).status =
      (if t ∈ cfg.values then 200 else 401) := by
  simp only [get_api_usage, headerGet_bearerHeaders, sliceFrom7_append, isBearer_append,
    not_true, ite_false]
  split_ifs <;> rfl

theorem get_service_log_bearer (cfg : Config) (t : String) :
    (get_service_log cfg (bearerHeaders t)).status =
      (if t ∈ cfg.values then 200 else 401) := by
  simp only [get_service_log, headerGet_bearerHeaders, sliceFrom7_append]
  rw [if_neg (bearer_append_ne_empty t)]
  split_ifs <;> rfl

theorem proxy_bearer_unknown (cfg : Config) (parse : String → Option String)
    (net : Attempt → HttpResponse) (method path body t m : String)
    (hbody : body ≠ "") (hparse : parse body = some m)
    (h1 : m ∉ cfg.openaiModels) (h2 : m ∉ cfg.ollamaModels) :
    (proxy cfg parse net ⟨method, path, bearerHeaders t, body⟩).result =
      (if stripQuotes t ∈ cfg.values then
        .response ⟨"Invalid Model Name. Check if the model exists with /models endpoints",
          400, [("Proxy-Status", "invalid_model")]⟩
      else
        .response ⟨"Invalid API Key", 401, [("Proxy-Status", "invalid_api_key")]⟩) := by
  by_cases hk : stripQuotes t ∈ cfg.values
  · simp [proxy, headerGet_bearerHeaders, isBearer_append, sliceFrom7_append,
      hbody, hparse, hk, h1, h2]
  · simp [proxy, headerGet_bearerHeaders, isBearer_append, sliceFrom7_append,
      hbody, hparse, hk]

/-- Claim C4 counterexample: with credential store `{alice ↦ secret}`, the
`/api_usage` endpoint accepts the bare key but rejects the same key
wrapped in double quotes with 401 — acceptance is not quote-insensitive
on every authenticated endpoint. -/
theorem quote_handling_cex :
    (get_api_usage cfg0 "t" [] (bearerHeaders "secret")).status = 200 ∧
    (get_api_usage cfg0 "t" [] (bearerHeaders "\"secret\"")).status = 401 := by
  decide

/-- Claim C4 (corrected): quote stripping happens only on `/models` and
the proxy route, where acceptance of a quote-wrapped key coincides with
acceptance of the bare key; `/api_usage` and `/service_log` compare the
sliced token exactly against the store, so a quoted valid key is rejected
there. -/
theorem quote_handling_amended (cfg : Config) (k : String) (time : String)
    (log : List UsageRow) (parse : String → Option String)
    (net : Attempt → HttpResponse) (method path body m : String)
    (hbody : body ≠ "") (hparse : parse body = some m)
    (h1 : m ∉ cfg.openaiModels) (h2 : m ∉ cfg.ollamaModels) :
    ((get_models cfg (bearerHeaders ("\"" ++ k ++ "\""))).status = 200 ↔
      (get_models cfg (bearerHeaders k)).status = 200) ∧
    ((get_api_usage cfg time log (bearerHeaders k)).status = 200 ↔ k ∈ cfg.values) ∧
    ((get_service_log cfg (bearerHeaders k)).status = 200 ↔ k ∈ cfg.values) ∧
    (proxy cfg parse net ⟨method, path, bearerHeaders ("\"" ++ k ++ "\""), body⟩).result =
      (proxy cfg parse net ⟨method, path, bearerHeaders k, body⟩).result := by
  refine ⟨?_, ?_, ?_, ?_⟩
  · rw [get_models_bearer, get_models_bearer, stripQuotes_dquote]
  · rw [get_api_usage_bearer]; split_ifs with h <;> simp [h]
  · rw [get_service_log_bearer]; split_ifs with h <;> simp [h]
  · rw [proxy_bearer_unknown cfg parse net method path body _ m hbody hparse h1 h2,
      proxy_bearer_unknown cfg parse net method path body _ m hbody hparse h1 h2,
      stripQuotes_dquote]

/-- Witness for `quote_handling_amended` at the sample store. -/
theorem quote_handling_amended_witness :
    ((get_models cfg0 (bearerHeaders ("\"" ++ "secret" ++ "\""))).status = 200 ↔
      (get_models cfg0 (bearerHeaders "secret")).status = 200) ∧
    ((get_api_usage cfg0 "t" [] (bearerHeaders "secret")).status = 200 ↔
      "secret" ∈ cfg0.values) ∧
    ((get_service_log cfg0 (bearerHeaders "secret")).status = 200 ↔
      "secret" ∈ cfg0.values) ∧
    (proxy cfg0 parseUnknown net0
        ⟨"POST", "/v1/x", bearerHeaders ("\"" ++ "secret" ++ "\""), "x"⟩).result =
      (proxy cfg0 parseUnknown net0 ⟨"POST", "/v1/x", bearerHeaders "secret", "x"⟩).result :=
  quote_handling_amended cfg0 "secret" "t" [] parseUnknown net0 "POST" "/v1/x" "x" "zzz"
    (by decide) rfl (by decide) (by decide)

/-- Claim C5 counterexample: on `/models`, an Authorization header that is
present but lacks the `"Bearer "` prefix is not answered 400: the handler
slices it anyway and answers 401 with the invalid-key marker. -/
theorem malformed_header_cex :
    isBearer "Basic secret" = false ∧
    (get_models cfg0 [("Authorization", "Basic secret")]).status = 401 ∧
    (get_models cfg0 [("Authorization", "Basic secret")]).proxyStatus = some "invalid_api" := by
  decide

/-- Claim C5 (corrected): only `/api_usage` and the proxy route test the
`"Bearer "` prefix and answer 400 with the malformed marker whenever it is
missing; `/service_log` and `/models` treat any non-empty Authorization
header as well-formed, slice off seven characters, and answer 401 when
the resulting key (quote-stripped on `/models`) is not in the store. -/
theorem malformed_header_amended (cfg : Config) (time : String) (log : List UsageRow)
    (hs : List (String × String)) (parse : String → Option String)
    (net : Attempt → HttpResponse) (req : ProxyRequest) :
    (isBearer (headerGet hs "Authorization") = false →
      (get_api_usage cfg time log hs).status = 400 ∧
      (get_api_usage cfg time log hs).proxyStatus = some "invalid_api_key_format") ∧
    (isBearer (headerGet req.headers "Authorization") = false →
      (proxy cfg parse net req).result =
        .response ⟨"Invalid API Key format", 400,
          [("Proxy-Status", "invalid_api_key_format")]⟩) ∧
    (headerGet hs "Authorization" ≠ "" →
      stripQuotes (sliceFrom7 (headerGet hs "Authorization")) ∉ cfg.values →
      (get_models cfg hs).status = 401 ∧
      (get_models cfg hs).proxyStatus = some "invalid_api") ∧
    (headerGet hs "Authorization" ≠ "" →
      sliceFrom7 (headerGet hs "Authorization") ∉ cfg.values →
      (get_service_log cfg hs).status = 401 ∧
      (get_service_log cfg hs).proxyStatus = some "invalid_api") := by
  refine ⟨fun h => ?_, fun h => ?_, fun h1 h2 => ?_, fun h1 h2 => ?_⟩
  · constructor <;> simp [get_api_usage, h]
  · simp [proxy, h]
  · constructor <;> simp [get_models, h1, h2]
  · constructor <;> simp [get_service_log, h1, h2]

/-- Witness for `malformed_header_amended` at concrete headers. -/
theorem malformed_header_amended_witness :
    ((get_api_usage cfg0 "t" [] [("Authorization", "Basic secret")]).status = 400 ∧
      (get_api_usage cfg0 "t" [] [("Authorization", "Basic secret")]).proxyStatus =
        some "invalid_api_key_format") ∧
    ((proxy cfg0 parseUnknown net0 reqBasic).result =
      .response ⟨"Invalid API Key format", 400,
        [("Proxy-Status", "invalid_api_key_format")]⟩) ∧
    ((get_models cfg0 [("Authorization", "Basic secret")]).status = 401 ∧
      (get_models cfg0 [("Authorization", "Basic secret")]).proxyStatus = some "invalid_api") ∧
    ((get_service_log cfg0 [("Authorization", "Basic secret")]).status = 401 ∧
      (get_service_log cfg0 [("Authorization", "Basic secret")]).proxyStatus =
        some "invalid_api") :=
  ⟨(malformed_header_amended cfg0 "t" [] [("Authorization", "Basic secret")]
      parseUnknown net0 reqBasic).1 (by decide),
   (malformed_header_amended cfg0 "t" [] [("Authorization", "Basic secret")]
      parseUnknown net0 reqBasic).2.1 (by decide),
   (malformed_header_amended cfg0 "t" [] [("Authorization", "Basic secret")]
      parseUnknown net0 reqBasic).2.2.1 (by decide) (by decide),
   (malformed_header_amended cfg0 "t" [] [("Authorization", "Basic secret")]
      parseUnknown net0 reqBasic).2.2.2 (by decide) (by decide)⟩

/-- Claim C6 counterexample: with a configured OpenAI key, a failing
catalog fetch is not recovered as an empty set — the exception propagates
out of `get_openai_models`. -/
theorem catalog_failure_cex :
    get_openai_models "sk-upstream" (.error ()) (fun _ => none) = .error () := by
  simp [get_openai_models]

/-- Claim C6 (corrected): the catalog functions contain no error handler:
with a configured backend, a network error or an unparseable response body
propagates as an uncaught exception; the empty list is produced only when
the backend is unconfigured, or when the response parses to a JSON
document lacking the expected field, where the lookup default applies. -/
theorem catalog_failure_amended (key ip port c : String)
    (fetch : Except Unit String) (j : String → Option (Option (List String))) :
    (get_openai_models "" fetch j = .ok []) ∧
    (key ≠ "" → get_openai_models key (.error ()) j = .error ()) ∧
    (key ≠ "" → j c = none → get_openai_models key (.ok c) j = .error ()) ∧
    (key ≠ "" → j c = some none → get_openai_models key (.ok c) j = .ok []) ∧
    ((ip = "" ∨ port = "") → get_ollama_models ip port fetch j = .ok []) ∧
    (ip ≠ "" → port ≠ "" → get_ollama_models ip port (.error ()) j = .error ()) := by
  refine ⟨?_, fun h => ?_, fun h hj => ?_, fun h hj => ?_, fun h => ?_, fun hi hp => ?_⟩
  · simp [get_openai_models]
  · simp [get_openai_models, h]
  · simp [get_openai_models, h, hj]
  · simp [get_openai_models, h, hj]
  · rcases h with h | h <;> simp [get_ollama_models, h]
  · simp [get_ollama_models, hi, hp]

/-- Witness for `catalog_failure_amended` at concrete configurations and
oracles (applied with two parse oracles to exercise both parse outcomes). -/
theorem catalog_failure_amended_witness :
    (get_openai_models "" (.error ()) (fun _ => none) = .ok []) ∧
    (get_openai_models "sk-upstream" (.error ()) (fun _ => none) = .error ()) ∧
    (get_openai_models "sk-upstream" (.ok "oops") (fun _ => none) = .error ()) ∧
    (get_openai_models "sk-upstream" (.ok "x") (fun _ => some none) = .ok []) ∧
    (get_ollama_models "" "11434" (.error ()) (fun _ => none) = .ok []) ∧
    (get_ollama_models "10.0.0.2" "11434" (.error ()) (fun _ => none) = .error ()) :=
  ⟨(catalog_failure_amended "" "" "11434" "oops" (.error ()) (fun _ => none)).1,
   (catalog_failure_amended "sk-upstream" "" "" "oops" (.error ())
      (fun _ => none)).2.1 (by decide),
   (catalog_failure_amended "sk-upstream" "" "" "oops" (.error ())
      (fun _ => none)).2.2.1 (by decide) rfl,
   (catalog_failure_amended "sk-upstream" "" "" "x" (.error ())
      (fun _ => some none)).2.2.2.1 (by decide) rfl,
   (catalog_failure_amended "" "" "11434" "oops" (.error ())
      (fun _ => none)).2.2.2.2.1 (Or.inl rfl),
   (catalog_failure_amended "" "10.0.0.2" "11434" "oops" (.error ())
      (fun _ => none)).2.2.2.2.2 (by decide) (by decide)⟩

/-- Claim C7 counterexample: on the OpenAI branch, the outbound request's
header set is exactly the two constructed headers — the inbound
`X-Custom` header is dropped, contradicting all-headers-preserved. -/
theorem forward_frame_cex :
    ((proxy cfg0 parseGpt net0 reqOpenAI).attempts.map Attempt.headers) =
      [[("Content-Type", "application/json"), ("Authorization", "Bearer sk-upstream")]] ∧
    ("X-Custom", "v") ∈ reqOpenAI.headers := by
  decide

/-- Claim C7 (corrected): the body is forwarded byte-for-byte on both
branches, but the headers are not: the OpenAI branch replaces the header
set wholesale with exactly `Content-Type: application/json` and the
upstream `Authorization` (every other inbound header is dropped, and the
method is always POST), while the Ollama branch forwards all inbound
headers unchanged — including the inbound `Authorization`, since that
backend has no upstream credential. -/
theorem forward_frame_amended (cfg : Config) (parse : String → Option String)
    (net : Attempt → HttpResponse) (req : ProxyRequest) (m : String)
    (hauth : isBearer (headerGet req.headers "Authorization") = true)
    (hbody : req.body ≠ "") (hparse : parse req.body = some m)
    (hkey : stripQuotes (sliceFrom7 (headerGet req.headers "Authorization")) ∈ cfg.values) :
    (m ∈ cfg.openaiModels →
      (proxy cfg parse net req).attempts =
        [⟨"openai", "POST", cfg.openaiEndpoint ++ req.path,
          [("Content-Type", "application/json"),
            ("Authorization", "Bearer " ++ cfg.openaiApiKey)], req.body⟩]) ∧
    (m ∉ cfg.openaiModels → m ∈ cfg.ollamaModels →
      (proxy cfg parse net req).attempts =
        [⟨"ollama", req.method,
          "http://" ++ cfg.serverIp ++ ":" ++ cfg.serverPort ++ req.path,
          req.headers, req.body⟩]) := by
  constructor
  · intro h1
    simp [proxy, hauth, hbody, hparse, hkey, h1]
  · intro h1 h2
    simp [proxy, hauth, hbody, hparse, hkey, h1, h2]

/-- Witness for `forward_frame_amended` on both branches. -/
theorem forward_frame_amended_witness :
    (proxy cfg0 parseGpt net0 reqOpenAI).attempts =
      [⟨"openai", "POST", cfg0.openaiEndpoint ++ reqOpenAI.path,
        [("Content-Type", "application/json"),
          ("Authorization", "Bearer " ++ cfg0.openaiApiKey)], reqOpenAI.body⟩] ∧
    (proxy cfg0 parseLlama net0 reqOllama).attempts =
      [⟨"ollama", reqOllama.method,
        "http://" ++ cfg0.serverIp ++ ":" ++ cfg0.serverPort ++ reqOllama.path,
        reqOllama.headers, reqOllama.body⟩] :=
  ⟨(forward_frame_amended cfg0 parseGpt net0 reqOpenAI "gpt-4o"
      (by decide) (by decide) rfl (by decide)).1 (by decide),
   (forward_frame_amended cfg0 parseLlama net0 reqOllama "llama3:latest"
      (by decide) (by decide) rfl (by decide)).2 (by decide) (by decide)⟩

end ProxyAuth
